import Mathlib

/-!
# SauceBot: dispense-safety and stats-accounting core

A shallow embedding of the core logic of `src/Saucebot.py`: the counters
state, the stats file load/save, the throttled dispense handlers
(`on_tomato`, `on_mustard`, `on_both`) and the pump activation helper
(`dispense`).

Modelling conventions:

* Python floats (timestamps and durations) are modelled as rationals `ℚ`.
  All constants of the program (1.5, 6.0, 0.05) are fixed literals, and the
  program only compares, subtracts and stores these values; the mapping from
  doubles to rationals is order-faithful for these operations.
* Python ints are modelled as `Int` (CPython integers are unbounded).
* The stats file is modelled by `FileContent`: absent, malformed (any
  content on which `json.loads` raises, or whose parse is not a
  dict-like value -- `state.update` then raises, the `except` swallows it
  and the state is left as it was), or a parsed JSON object restricted to
  the four keys the program reads and writes (other keys never influence
  the four counters fields; non-numeric field values are outside the
  model).
* Effects are explicit: a `World` carries the counters, the last content
  written to the stats file, and the list of pump activations started so
  far.  `dispense` spawns a background on/sleep/off sequence; the model
  records the activation (with its clamped sleep duration) in the trace.
* Each UI handler reads `time.time()` up to twice (in `too_soon` and in
  `record_served`); the model passes one request time `now` to both, i.e.
  the reads within one handler are identified, matching the spec's
  `request(target, now)` interface.
-/

namespace SauceBot

/-- `DEFAULT_DISPENSE_TIME_SECONDS = 1.5` from the config block. -/
def DEFAULT_DISPENSE_TIME_SECONDS : ℚ := 1.5

/-- `MIN_INTERVAL_SECONDS = 1.5` from the config block. -/
def MIN_INTERVAL_SECONDS : ℚ := 1.5

/-- `MAX_DISPENSE_SECONDS = 6.0` from the config block. -/
def MAX_DISPENSE_SECONDS : ℚ := 6.0

/-- The `state` dict: `served`, `tomato_served`, `mustard_served`,
`last_dispense_time`. -/
structure Counters where
  served : Int
  tomato_served : Int
  mustard_served : Int
  last_dispense_time : ℚ
deriving Repr, DecidableEq

/-- The initial value of the `state` dict: all zeroes. -/
def initState : Counters :=
  { served := 0, tomato_served := 0, mustard_served := 0
    last_dispense_time := 0 }

/-- A parsed JSON object, restricted to the four keys the program uses; a
`none` field is a key absent from the object (`state.update` then keeps the
previous value). -/
structure StatsJson where
  served : Option Int
  tomato_served : Option Int
  mustard_served : Option Int
  last_dispense_time : Option ℚ
deriving Repr, DecidableEq

/-- The stats file as `load_stats` sees it: missing, content on which the
`try` block raises (malformed JSON, or a parse `state.update` rejects), or a
parsed JSON object. -/
inductive FileContent where
  | missing : FileContent
  | malformed : FileContent
  | object : StatsJson → FileContent
deriving Repr, DecidableEq

/-- `load_stats()`: if the file is missing, do nothing; if reading or
parsing raises, `except Exception: pass` keeps the state as it was;
otherwise `state.update(j)` overwrites exactly the keys present in the
parsed object. -/
def load_stats (file : FileContent) (state : Counters) : Counters :=
  match file with
  | .missing => state
  | .malformed => state
  | .object j =>
      { served := j.served.getD state.served
        tomato_served := j.tomato_served.getD state.tomato_served
        mustard_served := j.mustard_served.getD state.mustard_served
        last_dispense_time := j.last_dispense_time.getD state.last_dispense_time }

/-- `save_stats()`: overwrite the whole file with the four fields of the
state. -/
def save_stats (state : Counters) : FileContent :=
  .object
    { served := some state.served
      tomato_served := some state.tomato_served
      mustard_served := some state.mustard_served
      last_dispense_time := some state.last_dispense_time }

/-- The two pump output devices, `pump_tomato` and `pump_mustard`. -/
inductive Pump where
  | tomato : Pump
  | mustard : Pump
deriving Repr, DecidableEq

/-- One step of a pump worker thread: switch the output on, hold it for a
duration, switch it off. -/
inductive PumpEvent where
  | on : PumpEvent
  | sleep : ℚ → PumpEvent
  | off : PumpEvent
deriving Repr, DecidableEq

/-- A background activation started by `dispense`: which device, and the
on/sleep/off sequence its worker runs. -/
structure PumpActivation where
  pump : Pump
  events : List PumpEvent
deriving Repr, DecidableEq

/-- `dispense(pump_device, seconds)`: clamp the duration with
`max(0.05, min(seconds, MAX_DISPENSE_SECONDS))` and start a worker that
runs on / sleep(seconds) / off. -/
def dispense (pump_device : Pump) (seconds : ℚ) : PumpActivation :=
  let s := max 0.05 (min seconds MAX_DISPENSE_SECONDS)
  { pump := pump_device, events := [.on, .sleep s, .off] }

/-- The observable state of the process: the counters dict, the last
content written to the stats file, and the pump activations started so far
(in order). -/
structure World where
  counters : Counters
  file : FileContent
  pumps : List PumpActivation
deriving Repr, DecidableEq

/-- The world at process start with no stats file present. -/
def initWorld : World :=
  { counters := initState, file := .missing, pumps := [] }

/-- `SauceBotUI.too_soon()`: true when `now - state["last_dispense_time"]
< MIN_INTERVAL_SECONDS`. -/
def too_soon (now : ℚ) (s : Counters) : Bool :=
  if now - s.last_dispense_time < MIN_INTERVAL_SECONDS then true else false

/-- `SauceBotUI.record_served(which)`: increment `served`, increment the
sub-counter matching `which`, set `last_dispense_time`, then `save_stats()`. -/
def record_served (which : String) (now : ℚ) (w : World) : World :=
  let c0 := w.counters
  let c1 : Counters := { c0 with served := c0.served + 1 }
  let c2 : Counters :=
    if which = "tomato" then { c1 with tomato_served := c1.tomato_served + 1 }
    else if which = "mustard" then { c1 with mustard_served := c1.mustard_served + 1 }
    else c1
  let c3 : Counters := { c2 with last_dispense_time := now }
  { w with counters := c3, file := save_stats c3 }

/-- `SauceBotUI.on_tomato()`: reject if `too_soon()`, else dispense the
tomato pump for the default time and record. -/
def on_tomato (now : ℚ) (w : World) : World × Bool :=
  if too_soon now w.counters then (w, false)
  else
    let w1 : World :=
      { w with pumps := w.pumps ++ [dispense .tomato DEFAULT_DISPENSE_TIME_SECONDS] }
    (record_served "tomato" now w1, true)

/-- `SauceBotUI.on_mustard()`: reject if `too_soon()`, else dispense the
mustard pump for the default time and record. -/
def on_mustard (now : ℚ) (w : World) : World × Bool :=
  if too_soon now w.counters then (w, false)
  else
    let w1 : World :=
      { w with pumps := w.pumps ++ [dispense .mustard DEFAULT_DISPENSE_TIME_SECONDS] }
    (record_served "mustard" now w1, true)

/-- `SauceBotUI.on_both()`: one `too_soon()` check; on acceptance dispense
both pumps and record once per sub-target. -/
def on_both (now : ℚ) (w : World) : World × Bool :=
  if too_soon now w.counters then (w, false)
  else
    let w1 : World :=
      { w with pumps := w.pumps ++
          [dispense .tomato DEFAULT_DISPENSE_TIME_SECONDS,
           dispense .mustard DEFAULT_DISPENSE_TIME_SECONDS] }
    let w2 := record_served "tomato" now w1
    (record_served "mustard" now w2, true)

/-- A request target, as the spec's `request(target, now)` names the three
button handlers. -/
inductive Target where
  | tomato : Target
  | mustard : Target
  | both : Target
deriving Repr, DecidableEq

/-- The spec's `request(target, now)` operation: dispatch to the handler of
the target.  The returned `Bool` is true when the request was accepted. -/
def request : Target → ℚ → World → World × Bool
  | .tomato => on_tomato
  | .mustard => on_mustard
  | .both => on_both

/-- Run a sequence of requests, each given by its target and its time. -/
def run : List (Target × ℚ) → World → World
  | [], w => w
  | (t, now) :: rest, w => run rest (request t now w).1

/-- The times of the accepted requests of a sequence, in order. -/
def acceptedTimes : List (Target × ℚ) → World → List ℚ
  | [], _ => []
  | (t, now) :: rest, w =>
      let r := request t now w
      if r.2 then now :: acceptedTimes rest r.1 else acceptedTimes rest r.1

/-! ## Basic lemmas about one request -/

theorem min_interval_nonneg : (0 : ℚ) ≤ MIN_INTERVAL_SECONDS := by
  norm_num [MIN_INTERVAL_SECONDS]

theorem too_soon_eq_true_iff (now : ℚ) (s : Counters) :
    too_soon now s = true ↔ now - s.last_dispense_time < MIN_INTERVAL_SECONDS := by
  by_cases h : now - s.last_dispense_time < MIN_INTERVAL_SECONDS <;> simp [too_soon, h]

theorem request_rejected_iff (t : Target) (now : ℚ) (w : World) :
    (request t now w).2 = false ↔
      now - w.counters.last_dispense_time < MIN_INTERVAL_SECONDS := by
  by_cases h : now - w.counters.last_dispense_time < MIN_INTERVAL_SECONDS <;>
    cases t <;> simp [request, on_tomato, on_mustard, on_both, too_soon, h]

theorem request_rejected_eq {t : Target} {now : ℚ} {w : World}
    (h : (request t now w).2 = false) : (request t now w).1 = w := by
  have hts : too_soon now w.counters = true := by
    rw [too_soon_eq_true_iff]
    exact (request_rejected_iff t now w).mp h
  cases t <;> simp [request, on_tomato, on_mustard, on_both, hts]

theorem record_served_tomato (now : ℚ) (w : World) :
    record_served "tomato" now w =
      { counters :=
          { served := w.counters.served + 1
            tomato_served := w.counters.tomato_served + 1
            mustard_served := w.counters.mustard_served
            last_dispense_time := now }
        file := save_stats
          { served := w.counters.served + 1
            tomato_served := w.counters.tomato_served + 1
            mustard_served := w.counters.mustard_served
            last_dispense_time := now }
        pumps := w.pumps } := rfl

theorem record_served_mustard (now : ℚ) (w : World) :
    record_served "mustard" now w =
      { counters :=
          { served := w.counters.served + 1
            tomato_served := w.counters.tomato_served
            mustard_served := w.counters.mustard_served + 1
            last_dispense_time := now }
        file := save_stats
          { served := w.counters.served + 1
            tomato_served := w.counters.tomato_served
            mustard_served := w.counters.mustard_served + 1
            last_dispense_time := now }
        pumps := w.pumps } := rfl

theorem on_tomato_accepted {now : ℚ} {w : World}
    (h : too_soon now w.counters = false) :
    on_tomato now w =
      ({ counters :=
           { served := w.counters.served + 1
             tomato_served := w.counters.tomato_served + 1
             mustard_served := w.counters.mustard_served
             last_dispense_time := now }
         file := save_stats
           { served := w.counters.served + 1
             tomato_served := w.counters.tomato_served + 1
             mustard_served := w.counters.mustard_served
             last_dispense_time := now }
         pumps := w.pumps ++ [dispense .tomato DEFAULT_DISPENSE_TIME_SECONDS] },
       true) := by
  simp [on_tomato, h, record_served_tomato]

theorem on_mustard_accepted {now : ℚ} {w : World}
    (h : too_soon now w.counters = false) :
    on_mustard now w =
      ({ counters :=
           { served := w.counters.served + 1
             tomato_served := w.counters.tomato_served
             mustard_served := w.counters.mustard_served + 1
             last_dispense_time := now }
         file := save_stats
           { served := w.counters.served + 1
             tomato_served := w.counters.tomato_served
             mustard_served := w.counters.mustard_served + 1
             last_dispense_time := now }
         pumps := w.pumps ++ [dispense .mustard DEFAULT_DISPENSE_TIME_SECONDS] },
       true) := by
  simp [on_mustard, h, record_served_mustard]

theorem on_both_accepted {now : ℚ} {w : World}
    (h : too_soon now w.counters = false) :
    on_both now w =
      ({ counters :=
           { served := w.counters.served + 2
             tomato_served := w.counters.tomato_served + 1
             mustard_served := w.counters.mustard_served + 1
             last_dispense_time := now }
         file := save_stats
           { served := w.counters.served + 2
             tomato_served := w.counters.tomato_served + 1
             mustard_served := w.counters.mustard_served + 1
             last_dispense_time := now }
         pumps := w.pumps ++
           [dispense .tomato DEFAULT_DISPENSE_TIME_SECONDS,
            dispense .mustard DEFAULT_DISPENSE_TIME_SECONDS] },
       true) := by
  simp [on_both, h, record_served_tomato, record_served_mustard]
  ring_nf
  trivial

theorem request_accepted_last {t : Target} {now : ℚ} {w : World}
    (h : (request t now w).2 = true) :
    (request t now w).1.counters.last_dispense_time = now := by
  have hts : too_soon now w.counters = false := by
    by_contra hc
    have hts' : too_soon now w.counters = true := by
      cases hb : too_soon now w.counters
      · exact absurd hb hc
      · rfl
    have : (request t now w).2 = false := by
      cases t <;> simp [request, on_tomato, on_mustard, on_both, hts']
    simp [this] at h
  cases t
  · rw [request, on_tomato_accepted hts]
  · rw [request, on_mustard_accepted hts]
  · rw [request, on_both_accepted hts]

theorem request_accepted_ge {t : Target} {now : ℚ} {w : World}
    (h : (request t now w).2 = true) :
    w.counters.last_dispense_time + MIN_INTERVAL_SECONDS ≤ now := by
  have hnot : ¬ (request t now w).2 = false := by simp [h]
  have := (request_rejected_iff t now w).not.mp hnot
  linarith [not_lt.mp this]

theorem request_last_mono (t : Target) (now : ℚ) (w : World) :
    w.counters.last_dispense_time ≤
      (request t now w).1.counters.last_dispense_time := by
  cases hb : (request t now w).2
  · rw [request_rejected_eq hb]
  · rw [request_accepted_last hb]
    have h1 := request_accepted_ge hb
    linarith [min_interval_nonneg]

theorem run_last_mono (ops : List (Target × ℚ)) (w : World) :
    w.counters.last_dispense_time ≤
      (run ops w).counters.last_dispense_time := by
  induction ops generalizing w with
  | nil => simp [run]
  | cons p rest ih =>
      obtain ⟨t, now⟩ := p
      calc w.counters.last_dispense_time
          ≤ (request t now w).1.counters.last_dispense_time :=
            request_last_mono t now w
        _ ≤ (run rest (request t now w).1).counters.last_dispense_time :=
            ih (request t now w).1
        _ = (run ((t, now) :: rest) w).counters.last_dispense_time := rfl

theorem request_additive {t : Target} {now : ℚ} {w : World}
    (h : w.counters.served =
          w.counters.tomato_served + w.counters.mustard_served) :
    (request t now w).1.counters.served =
      (request t now w).1.counters.tomato_served +
        (request t now w).1.counters.mustard_served := by
  cases hts : too_soon now w.counters
  · cases t
    · rw [request, on_tomato_accepted hts]; dsimp only; omega
    · rw [request, on_mustard_accepted hts]; dsimp only; omega
    · rw [request, on_both_accepted hts]; dsimp only; omega
  · have : (request t now w).2 = false := by
      cases t <;> simp [request, on_tomato, on_mustard, on_both, hts]
    rw [request_rejected_eq this]
    exact h

theorem run_additive (ops : List (Target × ℚ)) (w : World)
    (h : w.counters.served =
          w.counters.tomato_served + w.counters.mustard_served) :
    (run ops w).counters.served =
      (run ops w).counters.tomato_served +
        (run ops w).counters.mustard_served := by
  induction ops generalizing w with
  | nil => exact h
  | cons p rest ih =>
      obtain ⟨t, now⟩ := p
      exact ih (request t now w).1 (request_additive h)

theorem acceptedTimes_lb (ops : List (Target × ℚ)) (w : World) :
    ∀ x ∈ acceptedTimes ops w,
      w.counters.last_dispense_time + MIN_INTERVAL_SECONDS ≤ x := by
  induction ops generalizing w with
  | nil => simp [acceptedTimes]
  | cons p rest ih =>
      obtain ⟨t, now⟩ := p
      intro x hx
      simp only [acceptedTimes] at hx
      cases hr : (request t now w).2 with
      | false =>
          rw [hr] at hx
          simp only [Bool.false_eq_true, if_false] at hx
          have := ih (request t now w).1 x hx
          rwa [request_rejected_eq hr] at this
      | true =>
          rw [hr] at hx
          simp only [if_true] at hx
          rcases List.mem_cons.mp hx with rfl | hx'
          · exact request_accepted_ge hr
          · have h2 := ih (request t now w).1 x hx'
            rw [request_accepted_last hr] at h2
            have h3 := request_accepted_ge hr
            linarith [min_interval_nonneg]

theorem acceptedTimes_pairwise (ops : List (Target × ℚ)) (w : World) :
    List.Pairwise (fun a b => a + MIN_INTERVAL_SECONDS ≤ b)
      (acceptedTimes ops w) := by
  induction ops generalizing w with
  | nil => simp [acceptedTimes]
  | cons p rest ih =>
      obtain ⟨t, now⟩ := p
      simp only [acceptedTimes]
      cases hr : (request t now w).2 with
      | false =>
          simp only [Bool.false_eq_true, if_false]
          exact ih (request t now w).1
      | true =>
          simp only [if_true]
          refine List.Pairwise.cons ?_ (ih (request t now w).1)
          intro x hx
          have h1 := acceptedTimes_lb rest (request t now w).1 x hx
          rwa [request_accepted_last hr] at h1

theorem accepted_too_soon_false {t : Target} {now : ℚ} {w : World}
    (h : (request t now w).2 = true) : too_soon now w.counters = false := by
  cases hb : too_soon now w.counters
  · rfl
  · exfalso
    have hf : (request t now w).2 = false := by
      cases t <;> simp [request, on_tomato, on_mustard, on_both, hb]
    simp [hf] at h

/-! ## The claims -/

/-- C1: starting from the zeroed counters, after any sequence of requests
(accepted or rejected, including Both requests) the equality
`served = tomato_served + mustard_served` holds exactly. -/
theorem counter_additivity (ops : List (Target × ℚ)) :
    (run ops initWorld).counters.served =
      (run ops initWorld).counters.tomato_served +
        (run ops initWorld).counters.mustard_served :=
  run_additive ops initWorld (by norm_num [initWorld, initState])

/-- C2: a request is rejected exactly when
`now - last_dispense_time < MIN_INTERVAL_SECONDS`, and in any sequence of
requests from the start state the recorded times of the accepted requests
are pairwise at least `MIN_INTERVAL_SECONDS` apart. -/
theorem throttle_reject_iff_and_gap :
    MIN_INTERVAL_SECONDS = 3/2 ∧
    (∀ (t : Target) (now : ℚ) (w : World),
        (request t now w).2 = false ↔
          now - w.counters.last_dispense_time < MIN_INTERVAL_SECONDS) ∧
    (∀ ops : List (Target × ℚ),
        List.Pairwise (fun a b => a + MIN_INTERVAL_SECONDS ≤ b)
          (acceptedTimes ops initWorld)) :=
  ⟨by norm_num [MIN_INTERVAL_SECONDS], request_rejected_iff,
   fun ops => acceptedTimes_pairwise ops initWorld⟩

/-- C3 counterexample: the file content `\x7b"served": 5\x7d` is valid JSON but
not a well-formed Counters record, yet loading it over the zeroed state does
not yield the all-zero Counters: `state.update` merges the one key it has. -/
theorem load_partial_object_not_zero :
    load_stats
        (.object { served := some 5
                   tomato_served := none
                   mustard_served := none
                   last_dispense_time := none })
        initState ≠ initState := by
  simp [load_stats, initState]

/-- C3 amended: `load_stats` never raises; a missing file or content whose
parse raises leaves the state (zeroed at startup) unchanged, and a parsed
JSON object overwrites exactly the keys it contains -- a full record is
restored exactly, while a partial object such as `\x7b"served": 5\x7d` yields a
partially updated, not necessarily all-zero, value. -/
theorem load_fallback :
    (∀ s : Counters, load_stats .missing s = s) ∧
    (∀ s : Counters, load_stats .malformed s = s) ∧
    (∀ (v t m : Int) (l : ℚ),
        load_stats
            (.object { served := some v
                       tomato_served := some t
                       mustard_served := some m
                       last_dispense_time := some l })
            initState =
          { served := v
            tomato_served := t
            mustard_served := m
            last_dispense_time := l }) ∧
    load_stats
        (.object { served := some 5
                   tomato_served := none
                   mustard_served := none
                   last_dispense_time := none })
        initState =
      { served := 5
        tomato_served := 0
        mustard_served := 0
        last_dispense_time := 0 } :=
  ⟨fun _ => rfl, fun _ => rfl, fun _ _ _ _ => rfl, rfl⟩

/-- C4: for every requested duration `d` the on/sleep/off sequence started
by `dispense` holds the pump on for exactly
`max 0.05 (min d MAX_DISPENSE_SECONDS)`, with `MAX_DISPENSE_SECONDS = 6`. -/
theorem duration_clamp (p : Pump) (d : ℚ) :
    MAX_DISPENSE_SECONDS = 6 ∧
    (dispense p d).events =
      [PumpEvent.on, PumpEvent.sleep (max 0.05 (min d MAX_DISPENSE_SECONDS)),
       PumpEvent.off] :=
  ⟨by norm_num [MAX_DISPENSE_SECONDS], rfl⟩

/-- C5: saving any Counters value and loading the result restores the value
field for field, whatever state the loader starts from. -/
theorem save_load_round_trip (c prior : Counters) :
    load_stats (save_stats c) prior = c := rfl

/-- C6: a rejected request changes nothing (counters, stats file and pump
trace are all untouched), and `last_dispense_time` never decreases across
any sequence of requests. -/
theorem rejected_noop_and_last_mono :
    (∀ (t : Target) (now : ℚ) (w : World),
        (request t now w).2 = false → (request t now w).1 = w) ∧
    (∀ (ops : List (Target × ℚ)) (w : World),
        w.counters.last_dispense_time ≤
          (run ops w).counters.last_dispense_time) :=
  ⟨fun _ _ _ h => request_rejected_eq h, run_last_mono⟩

/-- C7: a Both request is gated once against the shared
`last_dispense_time`: it is accepted exactly when the single shared check
passes, and on acceptance both pumps are activated and both sub-targets are
recorded. -/
theorem both_gated_once (now : ℚ) (w : World) :
    ((request .both now w).2 = true ↔
      ¬ now - w.counters.last_dispense_time < MIN_INTERVAL_SECONDS) ∧
    ((request .both now w).2 = true →
      (request .both now w).1.pumps =
        w.pumps ++ [dispense .tomato DEFAULT_DISPENSE_TIME_SECONDS,
                    dispense .mustard DEFAULT_DISPENSE_TIME_SECONDS] ∧
      (request .both now w).1.counters.tomato_served =
        w.counters.tomato_served + 1 ∧
      (request .both now w).1.counters.mustard_served =
        w.counters.mustard_served + 1) := by
  constructor
  · rw [← request_rejected_iff Target.both now w]
    cases hb : (request Target.both now w).2 <;> simp [hb]
  · intro h
    have hts := accepted_too_soon_false h
    rw [request, on_both_accepted hts]
    exact ⟨rfl, rfl, rfl⟩

/-- C8: on every accepted request the updated counters are serialized in
full to the stats file before the handler returns: the returned world's file
is exactly `save_stats` of its counters, which already show the increment,
while the pump activation merely sits in the trace. -/
theorem record_before_return (t : Target) (now : ℚ) (w : World)
    (h : (request t now w).2 = true) :
    (request t now w).1.file = save_stats (request t now w).1.counters ∧
    (request t now w).1.counters.served =
      w.counters.served + (if t = Target.both then 2 else 1) := by
  have hts := accepted_too_soon_false h
  cases t
  · rw [request, on_tomato_accepted hts]
    exact ⟨rfl, rfl⟩
  · rw [request, on_mustard_accepted hts]
    exact ⟨rfl, rfl⟩
  · rw [request, on_both_accepted hts]
    exact ⟨rfl, rfl⟩

/-- C8 witness: the accepted tomato request at time 2 from the start state
leaves the file equal to the serialization of its updated counters. -/
theorem record_before_return_witness :
    (request Target.tomato 2 initWorld).1.file =
      save_stats (request Target.tomato 2 initWorld).1.counters ∧
    (request Target.tomato 2 initWorld).1.counters.served =
      initWorld.counters.served +
        (if Target.tomato = Target.both then 2 else 1) :=
  record_before_return Target.tomato 2 initWorld
    (by norm_num [request, on_tomato, too_soon, initWorld, initState,
      MIN_INTERVAL_SECONDS])

/-- C10: an accepted Both request records once per sub-target, so `served`
grows by exactly 2 while each sub-counter grows by exactly 1. -/
theorem both_increments (now : ℚ) (w : World)
    (h : (request .both now w).2 = true) :
    (request .both now w).1.counters.served = w.counters.served + 2 ∧
    (request .both now w).1.counters.tomato_served =
      w.counters.tomato_served + 1 ∧
    (request .both now w).1.counters.mustard_served =
      w.counters.mustard_served + 1 := by
  have hts := accepted_too_soon_false h
  rw [request, on_both_accepted hts]
  exact ⟨rfl, rfl, rfl⟩

/-- C10 witness: the accepted Both request at time 2 from the start state
takes `served` from 0 to 2 and each sub-counter from 0 to 1. -/
theorem both_increments_witness :
    (request Target.both 2 initWorld).1.counters.served =
      initWorld.counters.served + 2 ∧
    (request Target.both 2 initWorld).1.counters.tomato_served =
      initWorld.counters.tomato_served + 1 ∧
    (request Target.both 2 initWorld).1.counters.mustard_served =
      initWorld.counters.mustard_served + 1 :=
  both_increments 2 initWorld
    (by norm_num [request, on_both, too_soon, initWorld, initState,
      MIN_INTERVAL_SECONDS])

/-- C9 counterexample: with zeroed counters (`last_dispense_time = 0`) the
request at `t = 0` is rejected, not accepted: `0 - 0 < 1.5`.  Counters stay
at zero instead of the claimed `served = 1`. -/
theorem scenario_at_zero_rejected :
    (request Target.tomato 0 initWorld).2 = false ∧
    (request Target.tomato 0 initWorld).1 = initWorld := by
  have h : (request Target.tomato 0 initWorld).2 = false := by
    norm_num [request, on_tomato, too_soon, initWorld, initState,
      MIN_INTERVAL_SECONDS]
  exact ⟨h, request_rejected_eq h⟩

/-- C9 amended: the scenario holds with every time shifted by the throttle
window: from zero counters, Tomato at `t = 1.5` is accepted (served 1/1/0,
tomato pump on for 1.5 s), Mustard at `t = 2` (0.5 s later) is rejected with
counters unchanged, Mustard at `t = 3.5` (2 s after the first) is accepted
(served 2/1/1). -/
theorem scenario_shifted :
    acceptedTimes
        [(Target.tomato, 1.5), (Target.mustard, 2), (Target.mustard, 3.5)]
        initWorld = [1.5, 3.5] ∧
    (run [(Target.tomato, 1.5)] initWorld).counters =
      { served := 1, tomato_served := 1, mustard_served := 0,
        last_dispense_time := 1.5 } ∧
    (run [(Target.tomato, 1.5)] initWorld).pumps =
      [{ pump := Pump.tomato,
         events := [.on, .sleep 1.5, .off] }] ∧
    (run [(Target.tomato, 1.5), (Target.mustard, 2)] initWorld).counters =
      { served := 1, tomato_served := 1, mustard_served := 0,
        last_dispense_time := 1.5 } ∧
    (run [(Target.tomato, 1.5), (Target.mustard, 2), (Target.mustard, 3.5)]
        initWorld).counters =
      { served := 2, tomato_served := 1, mustard_served := 1,
        last_dispense_time := 3.5 } := by
  refine ⟨?_, ?_, ?_, ?_, ?_⟩ <;>
    norm_num [acceptedTimes, run, request, on_tomato, on_mustard, too_soon,
      record_served, save_stats, dispense, initWorld, initState,
      MIN_INTERVAL_SECONDS, DEFAULT_DISPENSE_TIME_SECONDS,
      MAX_DISPENSE_SECONDS, min_def, max_def,
      (by decide : ("mustard" = "tomato") = False),
      (by decide : ("tomato" = "mustard") = False)]

end SauceBot
